import Mathlib

/-!
Shallow embedding of the Get_Data_From_Neon telemetry service
(`src/main.py` and `src/api/get_from_neon.py`).

The live-subscriber core (`ConnectionManager`) is embedded as explicit
state passing on a list that models Python's `set` of WebSocket handles
(no duplicates; the no-duplicate invariant is carried as a hypothesis
where a theorem needs it).  Transport behaviour — whether `send_text`
raises for a given subscriber — is a boolean parameter, and the two
starlette connection-state attributes are fields of the subscriber
handle.  HTTP endpoint handlers are embedded as pure functions taking
the database outcome as an explicit `Except` parameter; response bodies
whose exact JSON text does not matter to any property are represented
by symbolic constructors, one per distinct client-visible body produced
by the source.
-/

namespace GetDataFromNeon

/-- starlette `WebSocketState` values used by `main.py`. -/
inductive WebSocketState where
  | CONNECTING
  | CONNECTED
  | DISCONNECTED
deriving DecidableEq

/-- One WebSocket handle: an identity plus the two starlette state
attributes read by `ConnectionManager.broadcast`. -/
structure WS where
  id : Nat
  application_state : WebSocketState
  client_state : WebSocketState
deriving DecidableEq

/-- The liveness check of `main.py` line 70-71:
`ws.application_state == CONNECTED and ws.client_state == CONNECTED`. -/
def isLive (ws : WS) : Bool :=
  ws.application_state == WebSocketState.CONNECTED
    && ws.client_state == WebSocketState.CONNECTED

/-- A subscriber is classified dead by the pass when it fails the
liveness check or its `send_text` raises (`sendFails`). -/
def isDead (sendFails : WS → Bool) (ws : WS) : Bool :=
  !(isLive ws) || sendFails ws

/-- Observable outcome of one delivery pass of `broadcast`:
`received` records each successful `send_text` (subscriber, message),
`to_drop` is the list built by the loop's else/except branches, and
`attempted` records each subscriber on which `send_text` was invoked. -/
structure PassResult where
  received : List (WS × String)
  to_drop : List WS
  attempted : List WS
deriving DecidableEq

/-- The `for ws in conns` loop of `broadcast` (`main.py` lines 68-76):
per-subscriber try/except — a raising send appends to `to_drop` and the
loop continues; a subscriber failing the liveness check is appended to
`to_drop` without any send. -/
def runPass (sendFails : WS → Bool) (message : String) : List WS → PassResult
  | [] => ⟨[], [], []⟩
  | ws :: rest =>
    let r := runPass sendFails message rest
    if isLive ws then
      if sendFails ws then ⟨r.received, ws :: r.to_drop, ws :: r.attempted⟩
      else ⟨(ws, message) :: r.received, r.to_drop, ws :: r.attempted⟩
    else ⟨r.received, ws :: r.to_drop, r.attempted⟩

/-- The `ConnectionManager` class: the Python `set` field `active_connections`,
modelled as a list without duplicates. -/
structure ConnectionManager where
  active_connections : List WS
deriving DecidableEq

namespace ConnectionManager

/-- Method `connect` (`main.py` lines 48-54): `set.add` — inserts the handle if
absent, no-op if already present.  (`websocket.accept()` is a transport
effect outside the registry state.) -/
def connect (m : ConnectionManager) (ws : WS) : ConnectionManager :=
  if ws ∈ m.active_connections then m
  else ⟨m.active_connections ++ [ws]⟩

/-- Method `disconnect` (`main.py` lines 56-60): `set.discard` — removes the
handle if present, no-op (and never raises) if absent. -/
def disconnect (m : ConnectionManager) (ws : WS) : ConnectionManager :=
  ⟨m.active_connections.erase ws⟩

/-- The snapshot taken under the lock: `conns = list(self.active_connections)`. -/
def snapshot (m : ConnectionManager) : List WS :=
  m.active_connections

/-- The cleanup loop after the pass: `for ws in to_drop: discard(ws)`. -/
def dropAll (m : ConnectionManager) (to_drop : List WS) : ConnectionManager :=
  ⟨to_drop.foldl List.erase m.active_connections⟩

/-- Method `broadcast` (`main.py` lines 62-81): snapshot, delivery pass,
post-pass removal of every subscriber classified dead. -/
def broadcast (sendFails : WS → Bool) (message : String) (m : ConnectionManager) :
    ConnectionManager × PassResult :=
  let conns := snapshot m
  let r := runPass sendFails message conns
  (dropAll m r.to_drop, r)

/-- The interleaving of the spec's concurrent-add scenario: the snapshot
is taken, a `connect` for a new subscriber lands while the delivery pass
(run outside the lock) is in flight, and the post-pass cleanup then runs
on the updated registry. -/
def broadcastWithConnectAfterSnapshot (sendFails : WS → Bool) (message : String)
    (m : ConnectionManager) (d : WS) : ConnectionManager × PassResult :=
  let conns := snapshot m
  let m1 := connect m d
  let r := runPass sendFails message conns
  (dropAll m1 r.to_drop, r)

end ConnectionManager

/-! ## Timestamp coercion (`coerce_ts`, `main.py` lines 87-101)

Instants are modelled as `Int` epoch seconds (UTC); the numeric inputs
of the source (`int`/`float` seconds) are modelled as `Int`.  Python's
`datetime.fromisoformat` is an external library call, passed in as a
parameter `parseISO`, and "the current time" (`datetime.now`) as `now`.
`str.strip` / `endswith("Z")` / `s[:-1]` are modelled directly on the
character list of the string. -/

/-- Whitespace as stripped by Python's `str.strip()` (ASCII subset). -/
def pyIsSpace (c : Char) : Bool :=
  c == ' ' || c == '\t' || c == '\n' || c == '\r' || c == '\x0b' || c == '\x0c'

/-- Python `s.strip()`. -/
def pyStrip (s : String) : String :=
  ⟨((s.data.dropWhile pyIsSpace).reverse.dropWhile pyIsSpace).reverse⟩

/-- Python `s.endswith("Z")`. -/
def pyEndsWithZ (s : String) : Bool :=
  s.data.getLast? == some 'Z'

/-- Python `s[:-1]`. -/
def pyDropLast (s : String) : String :=
  ⟨s.data.dropLast⟩

/-- The dynamically-typed argument of `coerce_ts`: absent (`None`),
numeric epoch seconds, or a string. -/
inductive TSValue where
  | missing
  | num (n : Int)
  | str (s : String)
deriving DecidableEq

/-- Python truthiness test `not v` on the values `coerce_ts` receives:
`None`, the number `0` and the empty string are falsy. -/
def falsy : TSValue → Bool
  | .missing => true
  | .num n => n == 0
  | .str s => s == ""

/-- Function `coerce_ts(v)`: falsy input → current time; numeric input →
`fromtimestamp(v, utc)`, i.e. the instant `v`; string input → strip,
rewrite a trailing `Z` to `+00:00`, then `fromisoformat`, falling back
to the current time if parsing raises. -/
def coerce_ts (parseISO : String → Option Int) (now : Int) (v : TSValue) : Int :=
  if falsy v then now
  else
    match v with
    | .missing => now
    | .num n => n
    | .str s0 =>
      let s := pyStrip s0
      let s2 := if pyEndsWithZ s then pyDropLast s ++ "+00:00" else s
      match parseISO s2 with
      | some t => t
      | none => now

/-! ## HTTP endpoints

Database access is external: each handler takes the outcome of its
query as an `Except String _` parameter whose `.error` value carries
the raw text of the database exception.  Rows are opaque serialized
records.  Response bodies are symbolic: one constructor per distinct
client-visible body the source can produce. -/

/-- One serialized sensor record (its internal structure is irrelevant
to every claim). -/
abbrev Row := String

/-- The three `WHERE` clauses of `read_sensor_data` (`main.py`
lines 257-262), selected by `time_range`. -/
inductive RangeFilter where
  | today
  | last7days
  | last30days
deriving DecidableEq

/-- The `time_range` dispatch of `read_sensor_data`: the enumerated
values select a filter; anything else falls to the 400 branch. -/
def timeRangeFilter : String → Option RangeFilter
  | "today" => some .today
  | "7d" => some .last7days
  | "30d" => some .last30days
  | _ => none

/-- Client-visible bodies of `/sensor_data` (`main.py` lines 241-293):
the JSON row array, the 400 detail (invalid `time_range`), and the one
fixed 500 detail (`Failed to fetch data from the database.`) produced
by the blanket `except` — which also swallows the internal
`Database URL is not configured.` exception. -/
inductive ReadBody where
  | rows (rs : List Row)
  | invalidTimeRange
  | fetchFailed
deriving DecidableEq

/-- Endpoint `read_sensor_data` (`main.py` lines 241-293). `db` runs the built
query with the clamped limit/offset and either returns rows or raises
with the database's error text. -/
def read_sensor_data (time_range : String) (limit offset : Int) (dbURL : Option String)
    (db : RangeFilter → Int → Int → Except String (List Row)) : Nat × ReadBody :=
  let limit := max 1 (min limit 5000)
  let offset := max 0 offset
  match timeRangeFilter time_range with
  | none => (400, .invalidTimeRange)
  | some w =>
    match dbURL with
    | none => (500, .fetchFailed)
    | some _ =>
      match db w limit offset with
      | .ok rs => (200, .rows rs)
      | .error _ => (500, .fetchFailed)

/-- The four queries `handler.do_GET` can build
(`src/api/get_from_neon.py` lines 62-71): three period filters and the
default `LIMIT 20` query used for a missing or unrecognized `period`. -/
inductive NeonQuery where
  | today
  | last7days
  | last30days
  | latest20
deriving DecidableEq

/-- The `period` dispatch of `do_GET`: unknown or absent values fall
through to the default query. -/
def selectQuery (period : Option String) : NeonQuery :=
  if period == some "today" then .today
  else if period == some "7days" then .last7days
  else if period == some "30days" then .last30days
  else .latest20

/-- Client-visible bodies of the serverless read handler: the record
array, the missing-`DATABASE_URL` error, and the fixed body of the
`psycopg2.Error` branch (`A database error occurred.` plus a fixed
check-the-logs note, no exception text). -/
inductive GetBody where
  | records (rs : List Row)
  | envNotSet
  | databaseError
deriving DecidableEq

/-- Handler `handler.do_GET` (`src/api/get_from_neon.py` lines 31-99) with the
database outcome explicit; `.error` models a raised `psycopg2.Error`
carrying the raw database error text.  (The final generic `except`
branch of the source handles non-database exceptions only and is not
modelled.) -/
def do_GET (dbURL : Option String) (period : Option String)
    (db : NeonQuery → Except String (List Row)) : Nat × GetBody :=
  match dbURL with
  | none => (500, .envNotSet)
  | some _ =>
    match db (selectQuery period) with
    | .error _ => (500, .databaseError)
    | .ok rows => (200, .records rows)

/-- Client-visible bodies of the write endpoint: the 401 detail
(`Invalid API Key`), the fixed 500 detail (`Failed to write data.`),
and the success body echoing the uploaded data. -/
inductive UploadBody where
  | invalidApiKey
  | writeFailed
  | success
deriving DecidableEq

/-- Full observable outcome of one `create_upload` call: HTTP status,
body, whether the insert committed, and whether a broadcast background
task was scheduled. -/
structure UploadResult where
  status : Nat
  body : UploadBody
  persisted : Bool
  broadcastScheduled : Bool
deriving DecidableEq

/-- Endpoint `create_upload` (`main.py` lines 300-344): the API-key check runs
first and short-circuits with 401; otherwise the insert runs (`db`,
whose `.error` carries the raised exception's text; a duplicate
`ON CONFLICT DO NOTHING` is an `.ok` outcome), and on success the
broadcast task is scheduled and 200 returned. -/
def create_upload (secret x_api_key : Option String) (db : Except String Unit) :
    UploadResult :=
  if x_api_key ≠ secret then ⟨401, .invalidApiKey, false, false⟩
  else
    match db with
    | .error _ => ⟨500, .writeFailed, false, false⟩
    | .ok _ => ⟨200, .success, true, true⟩

/-! ## Concrete fixtures

Three live subscribers and a registry holding them, used to instantiate
the theorems on the spec's own scenario (`{A,B,C}`, B's send raises). -/

/-- Subscriber A: live. -/
def wsA : WS := ⟨0, .CONNECTED, .CONNECTED⟩

/-- Subscriber B: live, but its transport raises on send. -/
def wsB : WS := ⟨1, .CONNECTED, .CONNECTED⟩

/-- Subscriber C: live. -/
def wsC : WS := ⟨2, .CONNECTED, .CONNECTED⟩

/-- Subscriber D: live, connected concurrently with a broadcast. -/
def wsD : WS := ⟨3, .CONNECTED, .CONNECTED⟩

/-- Registry fixture `{A, B, C}`. -/
def regABC : ConnectionManager := ⟨[wsA, wsB, wsC]⟩

/-- Transport behaviour where exactly B's `send_text` raises. -/
def failsB : WS → Bool := fun ws => ws.id == 1

/-! ## Characterization lemmas for the delivery pass -/

/-- The successful sends of a pass: exactly the live subscribers whose
transport does not raise, each paired with the broadcast message. -/
theorem runPass_received (f : WS → Bool) (msg : String) (l : List WS) :
    (runPass f msg l).received =
      (l.filter (fun ws => isLive ws && !(f ws))).map (fun ws => (ws, msg)) := by
  induction l with
  | nil => rfl
  | cons ws rest ih =>
    simp only [runPass, List.filter_cons]
    cases h1 : isLive ws <;> cases h2 : f ws <;> simp [h1, h2, ih]

/-- The drop list of a pass: exactly the subscribers classified dead. -/
theorem runPass_to_drop (f : WS → Bool) (msg : String) (l : List WS) :
    (runPass f msg l).to_drop = l.filter (isDead f) := by
  induction l with
  | nil => rfl
  | cons ws rest ih =>
    simp only [runPass, List.filter_cons]
    cases h1 : isLive ws <;> cases h2 : f ws <;> simp [h1, h2, ih, isDead]

/-- The send attempts of a pass: exactly the subscribers that pass the
liveness check. -/
theorem runPass_attempted (f : WS → Bool) (msg : String) (l : List WS) :
    (runPass f msg l).attempted = l.filter isLive := by
  induction l with
  | nil => rfl
  | cons ws rest ih =>
    simp only [runPass, List.filter_cons]
    cases h1 : isLive ws <;> cases h2 : f ws <;> simp [h1, h2, ih]

/-- Folding `erase` over a drop list removes exactly its members from a
duplicate-free list. -/
theorem foldl_erase_eq_filter (ds : List WS) :
    ∀ l : List WS, l.Nodup →
      ds.foldl List.erase l = l.filter (fun a => decide (a ∉ ds)) := by
  induction ds with
  | nil => intro l _; simp
  | cons d ds ih =>
    intro l hl
    have h1 : (d :: ds).foldl List.erase l = ds.foldl List.erase (l.erase d) := rfl
    rw [h1, ih _ (hl.erase d), hl.erase_eq_filter d, List.filter_filter]
    refine List.filter_congr ?_
    intro a _
    by_cases h : a = d <;> by_cases h2 : a ∈ ds <;> simp [h, h2]

/-- An element every drop-list entry differs from survives the cleanup
fold. -/
theorem mem_foldl_erase_of_ne (ds : List WS) :
    ∀ (l : List WS) (a : WS), a ∈ l → (∀ x ∈ ds, x ≠ a) →
      a ∈ ds.foldl List.erase l := by
  induction ds with
  | nil => intro l a h _; exact h
  | cons d ds ih =>
    intro l a h hx
    refine ih _ _ ?_ (fun x hm => hx x (List.mem_cons_of_mem d hm))
    exact (List.mem_erase_of_ne
      (fun he => (hx d (List.mem_cons_self d ds)) he.symm)).mpr h

/-- After `broadcast`, the registry is the old registry with exactly
the subscribers the pass classified dead filtered out. -/
theorem broadcast_active (f : WS → Bool) (msg : String) (m : ConnectionManager)
    (h : m.active_connections.Nodup) :
    (ConnectionManager.broadcast f msg m).1.active_connections
      = m.active_connections.filter (fun a => !(isDead f a)) := by
  show ((runPass f msg m.active_connections).to_drop.foldl List.erase
      m.active_connections) = _
  rw [runPass_to_drop, foldl_erase_eq_filter _ _ h]
  refine List.filter_congr ?_
  intro a ha
  by_cases hd : isDead f a = true <;> simp [List.mem_filter, ha, hd]

/-! ## String lemmas for `coerce_ts` -/

/-- A list whose head is not whitespace is unchanged by `dropWhile`. -/
theorem dropWhile_eq_self_of_head (l : List Char)
    (h : ∀ c, l.head? = some c → pyIsSpace c = false) :
    l.dropWhile pyIsSpace = l := by
  cases l with
  | nil => rfl
  | cons a t => simp [List.dropWhile_cons, h a rfl]

/-- Conversely, a `dropWhile`-fixed list has no whitespace head. -/
theorem head_not_space_of_dropWhile_eq (l : List Char)
    (h : l.dropWhile pyIsSpace = l) :
    ∀ c, l.head? = some c → pyIsSpace c = false := by
  intro c hc
  cases l with
  | nil => simp at hc
  | cons a t =>
    have hca : c = a := by simpa using hc.symm
    subst hca
    by_contra hs
    have hs' : pyIsSpace c = true := by simpa using hs
    rw [List.dropWhile_cons, hs'] at h
    simp only [if_true] at h
    have hlen := congrArg List.length h
    have hle := (List.dropWhile_sublist (l := t) pyIsSpace).length_le
    simp at hlen
    omega

/-- A string equal to its own strip has both `dropWhile` passes fixed. -/
theorem strip_parts (s : String) (h : pyStrip s = s) :
    s.data.dropWhile pyIsSpace = s.data ∧
    s.data.reverse.dropWhile pyIsSpace = s.data.reverse := by
  have hd : ((s.data.dropWhile pyIsSpace).reverse.dropWhile pyIsSpace).reverse
      = s.data := congrArg String.data h
  have hlen2 := congrArg List.length hd
  simp only [List.length_reverse] at hlen2
  have hle1 := (List.dropWhile_sublist (l := s.data) pyIsSpace).length_le
  have hle2 := (List.dropWhile_sublist
    (l := (s.data.dropWhile pyIsSpace).reverse) pyIsSpace).length_le
  simp only [List.length_reverse] at hle2
  have h1 : s.data.dropWhile pyIsSpace = s.data :=
    (List.dropWhile_sublist pyIsSpace).eq_of_length (by omega)
  refine ⟨h1, ?_⟩
  rw [h1] at hd
  have := congrArg List.reverse hd
  simpa using this

/-- A string whose head and last characters are not whitespace equals
its own strip. -/
theorem pyStrip_eq_self_of (l : List Char)
    (h1 : ∀ c, l.head? = some c → pyIsSpace c = false)
    (h2 : ∀ c, l.getLast? = some c → pyIsSpace c = false) :
    pyStrip ⟨l⟩ = ⟨l⟩ := by
  show (⟨((l.dropWhile pyIsSpace).reverse.dropWhile pyIsSpace).reverse⟩ : String)
    = (⟨l⟩ : String)
  rw [dropWhile_eq_self_of_head l h1,
    dropWhile_eq_self_of_head l.reverse
      (fun c hc => h2 c (by rwa [List.head?_reverse] at hc)),
    List.reverse_reverse]

/-- Heads of an append are heads of one of the parts. -/
theorem head_append_not_space (l1 l2 : List Char)
    (h1 : ∀ c, l1.head? = some c → pyIsSpace c = false)
    (h2 : ∀ c, l2.head? = some c → pyIsSpace c = false) :
    ∀ c, (l1 ++ l2).head? = some c → pyIsSpace c = false := by
  intro c hc
  cases l1 with
  | nil => exact h2 c (by simpa using hc)
  | cons a t => exact h1 c (by simpa using hc)

/-- The head of `dropLast` is the head of the list. -/
theorem head_dropLast (l : List Char) (c : Char) (h : l.dropLast.head? = some c) :
    l.head? = some c := by
  cases l with
  | nil => simp at h
  | cons a t =>
    cases t with
    | nil => simp at h
    | cons b u => simpa using h

/-! ## Claim theorems -/

/-- C1: during a single broadcast pass, a transport send failure for one
subscriber does not prevent delivery of the same message to the remaining
subscribers in the pass — every live subscriber whose send does not raise
receives the message — and every subscriber whose send failed does not
receive the message and is removed from the registry after the pass. -/
theorem broadcast_isolates_failures (f : WS → Bool) (msg : String)
    (m : ConnectionManager) (h : m.active_connections.Nodup) :
    (∀ ws ∈ ConnectionManager.snapshot m, isLive ws = true → f ws = false →
      (ws, msg) ∈ (ConnectionManager.broadcast f msg m).2.received) ∧
    (∀ ws ∈ ConnectionManager.snapshot m, isLive ws = true → f ws = true →
      (ws, msg) ∉ (ConnectionManager.broadcast f msg m).2.received ∧
      ws ∉ (ConnectionManager.broadcast f msg m).1.active_connections) := by
  refine ⟨?_, ?_⟩
  · intro ws hm hl hf
    show (ws, msg) ∈ (runPass f msg m.active_connections).received
    rw [runPass_received]
    exact List.mem_map_of_mem _ (List.mem_filter.mpr ⟨hm, by simp [hl, hf]⟩)
  · intro ws hm hl hf
    refine ⟨?_, ?_⟩
    · show (ws, msg) ∉ (runPass f msg m.active_connections).received
      rw [runPass_received]
      simp only [List.mem_map, List.mem_filter, not_exists]
      rintro a ⟨⟨_, hcond⟩, heq⟩
      have : a = ws := congrArg Prod.fst heq
      subst this
      simp [hl, hf] at hcond
    · rw [broadcast_active f msg m h]
      simp [List.mem_filter, isDead, hl, hf]

/-- C1 witness: registry `{A,B,C}`, B's send raises; `publish("x")`
delivers to A and C, B does not receive it and is removed. -/
theorem broadcast_isolates_failures_witness :
    (wsA, "x") ∈ (ConnectionManager.broadcast failsB "x" regABC).2.received ∧
    (wsC, "x") ∈ (ConnectionManager.broadcast failsB "x" regABC).2.received ∧
    ((wsB, "x") ∉ (ConnectionManager.broadcast failsB "x" regABC).2.received ∧
      wsB ∉ (ConnectionManager.broadcast failsB "x" regABC).1.active_connections) :=
  ⟨(broadcast_isolates_failures failsB "x" regABC (by decide)).1 wsA
      (by decide) (by decide) (by decide),
   (broadcast_isolates_failures failsB "x" regABC (by decide)).1 wsC
      (by decide) (by decide) (by decide),
   (broadcast_isolates_failures failsB "x" regABC (by decide)).2 wsB
      (by decide) (by decide) (by decide)⟩

/-- C2: `publish(m)` attempts delivery only to subscribers of the
snapshot taken at call time, delivers to every snapshot subscriber that
is live and whose send succeeds, and a subscriber connected after the
snapshot never receives that message yet is present in the registry
afterwards. -/
theorem broadcast_delivers_snapshot_only (f : WS → Bool) (msg : String)
    (m : ConnectionManager) (d : WS) (hd : d ∉ m.active_connections) :
    (∀ p ∈ (ConnectionManager.broadcastWithConnectAfterSnapshot f msg m d).2.received,
      p.1 ∈ ConnectionManager.snapshot m ∧ p.2 = msg) ∧
    (∀ ws ∈ (ConnectionManager.broadcastWithConnectAfterSnapshot f msg m d).2.attempted,
      ws ∈ ConnectionManager.snapshot m) ∧
    (∀ ws ∈ ConnectionManager.snapshot m, isLive ws = true → f ws = false →
      (ws, msg) ∈ (ConnectionManager.broadcastWithConnectAfterSnapshot f msg m d).2.received) ∧
    (∀ p ∈ (ConnectionManager.broadcastWithConnectAfterSnapshot f msg m d).2.received,
      p.1 ≠ d) ∧
    d ∈ (ConnectionManager.broadcastWithConnectAfterSnapshot f msg m d).1.active_connections := by
  have hrecv : (ConnectionManager.broadcastWithConnectAfterSnapshot f msg m d).2.received
      = (m.active_connections.filter (fun ws => isLive ws && !(f ws))).map
          (fun ws => (ws, msg)) := runPass_received f msg m.active_connections
  have hatt : (ConnectionManager.broadcastWithConnectAfterSnapshot f msg m d).2.attempted
      = m.active_connections.filter isLive := runPass_attempted f msg m.active_connections
  refine ⟨?_, ?_, ?_, ?_, ?_⟩
  · intro p hp
    rw [hrecv] at hp
    obtain ⟨a, ha, heq⟩ := List.mem_map.mp hp
    subst heq
    exact ⟨(List.mem_filter.mp ha).1, rfl⟩
  · intro ws hws
    rw [hatt] at hws
    exact (List.mem_filter.mp hws).1
  · intro ws hm hl hf
    rw [hrecv]
    exact List.mem_map_of_mem _ (List.mem_filter.mpr ⟨hm, by simp [hl, hf]⟩)
  · intro p hp heq
    rw [hrecv] at hp
    obtain ⟨a, ha, hpe⟩ := List.mem_map.mp hp
    have : a = p.1 := congrArg Prod.fst hpe
    subst this
    exact hd (heq ▸ (List.mem_filter.mp ha).1)
  · show d ∈ ((runPass f msg m.active_connections).to_drop.foldl List.erase
      (ConnectionManager.connect m d).active_connections)
    refine mem_foldl_erase_of_ne _ _ _ ?_ ?_
    · show d ∈ (ConnectionManager.connect m d).active_connections
      simp [ConnectionManager.connect, hd]
    · intro x hx
      rw [runPass_to_drop] at hx
      intro hxd
      exact hd (hxd ▸ (List.mem_filter.mp hx).1)

/-- C2 witness: snapshot `{A,B,C}` with B failing, D connected after the
snapshot: D receives nothing but is in the registry afterwards, and A is
delivered to from the snapshot. -/
theorem broadcast_delivers_snapshot_only_witness :
    (∀ p ∈ (ConnectionManager.broadcastWithConnectAfterSnapshot failsB "x" regABC wsD).2.received,
      p.1 ≠ wsD) ∧
    wsD ∈ (ConnectionManager.broadcastWithConnectAfterSnapshot failsB "x" regABC wsD).1.active_connections ∧
    (wsA, "x") ∈ (ConnectionManager.broadcastWithConnectAfterSnapshot failsB "x" regABC wsD).2.received :=
  ⟨(broadcast_delivers_snapshot_only failsB "x" regABC wsD (by decide)).2.2.2.1,
   (broadcast_delivers_snapshot_only failsB "x" regABC wsD (by decide)).2.2.2.2,
   (broadcast_delivers_snapshot_only failsB "x" regABC wsD (by decide)).2.2.1 wsA
      (by decide) (by decide) (by decide)⟩

/-- C3: for every subscriber of the pass, the dispatcher checks liveness
before sending: a non-live subscriber is classified dead with no send
attempt; a live one is attempted, classified dead exactly when its send
raises and delivered otherwise. -/
theorem pass_classification (f : WS → Bool) (msg : String) (l : List WS)
    (ws : WS) (h : ws ∈ l) :
    (isLive ws = false →
      ws ∈ (runPass f msg l).to_drop ∧ ws ∉ (runPass f msg l).attempted) ∧
    (isLive ws = true →
      ws ∈ (runPass f msg l).attempted ∧
      (f ws = true → ws ∈ (runPass f msg l).to_drop ∧
        (ws, msg) ∉ (runPass f msg l).received) ∧
      (f ws = false → (ws, msg) ∈ (runPass f msg l).received ∧
        ws ∉ (runPass f msg l).to_drop)) := by
  rw [runPass_to_drop, runPass_attempted, runPass_received]
  refine ⟨?_, ?_⟩
  · intro hl
    refine ⟨List.mem_filter.mpr ⟨h, by simp [isDead, hl]⟩, ?_⟩
    simp [List.mem_filter, hl]
  · intro hl
    refine ⟨List.mem_filter.mpr ⟨h, hl⟩, ?_, ?_⟩
    · intro hf
      refine ⟨List.mem_filter.mpr ⟨h, by simp [isDead, hf]⟩, ?_⟩
      simp only [List.mem_map, List.mem_filter, not_exists]
      rintro a ⟨⟨_, hcond⟩, heq⟩
      have : a = ws := congrArg Prod.fst heq
      subst this
      simp [hl, hf] at hcond
    · intro hf
      refine ⟨List.mem_map_of_mem _ (List.mem_filter.mpr ⟨h, by simp [hl, hf]⟩), ?_⟩
      simp [List.mem_filter, isDead, hl, hf]

/-- C3 witness: in the pass over `[A, B, X]` where B's send raises and X
is not live, X is dead with no attempt, B is attempted and dead, A is
attempted and delivered. -/
theorem pass_classification_witness :
    ((⟨4, .DISCONNECTED, .CONNECTED⟩ : WS) ∈
        (runPass failsB "x" [wsA, wsB, ⟨4, .DISCONNECTED, .CONNECTED⟩]).to_drop ∧
      (⟨4, .DISCONNECTED, .CONNECTED⟩ : WS) ∉
        (runPass failsB "x" [wsA, wsB, ⟨4, .DISCONNECTED, .CONNECTED⟩]).attempted) ∧
    (wsB ∈ (runPass failsB "x" [wsA, wsB, ⟨4, .DISCONNECTED, .CONNECTED⟩]).attempted ∧
      wsB ∈ (runPass failsB "x" [wsA, wsB, ⟨4, .DISCONNECTED, .CONNECTED⟩]).to_drop) ∧
    (wsA, "x") ∈ (runPass failsB "x" [wsA, wsB, ⟨4, .DISCONNECTED, .CONNECTED⟩]).received :=
  ⟨(pass_classification failsB "x" _ _ (by decide)).1 (by decide),
   ⟨((pass_classification failsB "x" [wsA, wsB, ⟨4, .DISCONNECTED, .CONNECTED⟩] wsB
        (by decide)).2 (by decide)).1,
    (((pass_classification failsB "x" [wsA, wsB, ⟨4, .DISCONNECTED, .CONNECTED⟩] wsB
        (by decide)).2 (by decide)).2.1 (by decide)).1⟩,
   (((pass_classification failsB "x" [wsA, wsB, ⟨4, .DISCONNECTED, .CONNECTED⟩] wsA
        (by decide)).2 (by decide)).2.2 (by decide)).1⟩

/-- C9: broadcast's only effect on the registry is removal of the
subscribers classified dead; when no subscriber is classified dead the
registry is unchanged. -/
theorem broadcast_frame_effect (f : WS → Bool) (msg : String)
    (m : ConnectionManager) (h : m.active_connections.Nodup) :
    (ConnectionManager.broadcast f msg m).1.active_connections
      = m.active_connections.filter (fun a => !(isDead f a)) ∧
    ((∀ ws ∈ m.active_connections, isDead f ws = false) →
      (ConnectionManager.broadcast f msg m).1 = m) := by
  refine ⟨broadcast_active f msg m h, ?_⟩
  intro hall
  have h1 : m.active_connections.filter (fun a => !(isDead f a))
      = m.active_connections :=
    List.filter_eq_self.mpr (fun a ha => by simp [hall a ha])
  cases m with
  | mk l =>
    have h2 := broadcast_active f msg ⟨l⟩ h
    simp only at h1
    exact congrArg ConnectionManager.mk (h2.trans h1)

/-- C9 witness: all of `{A,B,C}` live with no send failures — broadcast
leaves the registry exactly as it was. -/
theorem broadcast_frame_effect_witness :
    (ConnectionManager.broadcast (fun _ => false) "x" regABC).1 = regABC :=
  (broadcast_frame_effect (fun _ => false) "x" regABC (by decide)).2 (by decide)

/-- C4: `disconnect` on an absent subscriber is a no-op leaving the
registry unchanged, and `disconnect` is idempotent on a duplicate-free
registry. -/
theorem disconnect_noop_and_idempotent (m : ConnectionManager) (ws : WS) :
    (ws ∉ m.active_connections → ConnectionManager.disconnect m ws = m) ∧
    (m.active_connections.Nodup →
      ConnectionManager.disconnect (ConnectionManager.disconnect m ws) ws
        = ConnectionManager.disconnect m ws) := by
  refine ⟨?_, ?_⟩
  · intro h
    show (⟨m.active_connections.erase ws⟩ : ConnectionManager) = m
    rw [List.erase_of_not_mem h]
  · intro h
    show (⟨(m.active_connections.erase ws).erase ws⟩ : ConnectionManager)
      = ⟨m.active_connections.erase ws⟩
    rw [List.erase_of_not_mem (h.not_mem_erase)]

/-- C4 witness: removing an absent subscriber from `{A,B,C}` changes
nothing, and removing B twice equals removing it once. -/
theorem disconnect_noop_and_idempotent_witness :
    ConnectionManager.disconnect regABC wsD = regABC ∧
    ConnectionManager.disconnect (ConnectionManager.disconnect regABC wsB) wsB
      = ConnectionManager.disconnect regABC wsB :=
  ⟨(disconnect_noop_and_idempotent regABC wsD).1 (by decide),
   (disconnect_noop_and_idempotent regABC wsB).2 (by decide)⟩

/-- C10: adding an already-present subscriber is a no-op: the set of
active connections and its cardinality are unchanged. -/
theorem connect_idempotent_on_present (m : ConnectionManager) (ws : WS)
    (h : ws ∈ m.active_connections) :
    ConnectionManager.connect m ws = m ∧
    (ConnectionManager.connect m ws).active_connections.length
      = m.active_connections.length := by
  have h1 : ConnectionManager.connect m ws = m := by
    simp [ConnectionManager.connect, h]
  exact ⟨h1, by rw [h1]⟩

/-- C10 witness: adding B to `{A,B,C}` again leaves the registry and its
cardinality unchanged. -/
theorem connect_idempotent_on_present_witness :
    ConnectionManager.connect regABC wsB = regABC ∧
    (ConnectionManager.connect regABC wsB).active_connections.length
      = regABC.active_connections.length :=
  connect_idempotent_on_present regABC wsB (by decide)

/-- Computation of `coerce_ts` on a non-empty string input. -/
theorem coerce_ts_str (parseISO : String → Option Int) (now : Int) (s : String)
    (hne : (s == "") = false) :
    coerce_ts parseISO now (.str s) =
      (let s1 := pyStrip s
       let s2 := if pyEndsWithZ s1 then pyDropLast s1 ++ "+00:00" else s1
       match parseISO s2 with
       | some t => t
       | none => now) := by
  simp [coerce_ts, falsy, hne]

/-- C5 counterexample: the claim says every epoch numeric input maps to
the corresponding UTC instant, but the input `0` is falsy in Python and
takes the current-time fallback — with current time `1`, `coerce_ts 0`
returns `1`, not the instant `0` (1970-01-01T00:00:00+00:00). -/
theorem coerce_ts_zero_epoch :
    coerce_ts (fun _ => none) 1 (TSValue.num 0) = 1 ∧ (1 : Int) ≠ 0 :=
  ⟨rfl, by decide⟩

/-- C5 (amended): every nonzero epoch numeric input maps to the
corresponding UTC instant (zero, being falsy, takes the current-time
fallback); a stripped ISO string with a trailing `Z` coerces to the
same instant as the string with `+00:00` in its place; a missing input
yields the current time, and so does any string the ISO parser rejects. -/
theorem coerce_ts_amended (parseISO : String → Option Int) (now : Int) :
    (∀ n : Int, n ≠ 0 → coerce_ts parseISO now (.num n) = n) ∧
    coerce_ts parseISO now .missing = now ∧
    (∀ s : String, pyStrip s = s → pyEndsWithZ s = true →
      coerce_ts parseISO now (.str s)
        = coerce_ts parseISO now (.str (pyDropLast s ++ "+00:00"))) ∧
    (∀ s : String, (∀ t, parseISO t = none) →
      coerce_ts parseISO now (.str s) = now) := by
  refine ⟨?_, rfl, ?_, ?_⟩
  · intro n h
    have h0 : (n == 0) = false := beq_eq_false_iff_ne.mpr h
    simp [coerce_ts, falsy, h0]
  · intro s hstrip hz
    have hlast : s.data.getLast? = some 'Z' := by
      have := hz
      simp only [pyEndsWithZ, beq_iff_eq] at this
      exact this
    have hne : s.data ≠ [] := by
      intro h0
      rw [h0] at hlast
      simp at hlast
    have hsne : (s == "") = false := by
      refine beq_eq_false_iff_ne.mpr ?_
      intro h0
      exact hne (by simpa using congrArg String.data h0)
    have hs2data : (pyDropLast s ++ "+00:00").data
        = s.data.dropLast ++ "+00:00".data := String.data_append _ _
    have h2ne : (pyDropLast s ++ "+00:00").data ≠ [] := by
      rw [hs2data]
      simp
    have h2last : (pyDropLast s ++ "+00:00").data.getLast? = some '0' := by
      rw [hs2data, List.getLast?_append]
      rfl
    have h2z : pyEndsWithZ (pyDropLast s ++ "+00:00") = false := by
      simp [pyEndsWithZ, h2last]
    have h2sne : ((pyDropLast s ++ "+00:00") == "") = false := by
      refine beq_eq_false_iff_ne.mpr ?_
      intro h0
      exact h2ne (by simpa using congrArg String.data h0)
    have hparts := strip_parts s hstrip
    have hhead : ∀ c, (pyDropLast s ++ "+00:00").data.head? = some c →
        pyIsSpace c = false := by
      rw [hs2data]
      refine head_append_not_space _ _ ?_ ?_
      · intro c hc
        exact head_not_space_of_dropWhile_eq s.data hparts.1 c (head_dropLast _ _ hc)
      · intro c hc
        have hcp : c = '+' := by simpa using hc.symm
        subst hcp
        decide
    have hlast2 : ∀ c, (pyDropLast s ++ "+00:00").data.getLast? = some c →
        pyIsSpace c = false := by
      intro c hc
      rw [h2last] at hc
      have hc0 : c = '0' := by simpa using hc.symm
      subst hc0
      decide
    have h2strip : pyStrip (pyDropLast s ++ "+00:00") = pyDropLast s ++ "+00:00" :=
      pyStrip_eq_self_of (pyDropLast s ++ "+00:00").data hhead hlast2
    rw [coerce_ts_str parseISO now s hsne,
      coerce_ts_str parseISO now (pyDropLast s ++ "+00:00") h2sne]
    simp only [hstrip, h2strip, hz, h2z, if_true, Bool.false_eq_true, if_false]
  · intro s hp
    by_cases h0 : (s == "") = true
    · simp [coerce_ts, falsy, h0]
    · have h0' : (s == "") = false := by simpa using h0
      rw [coerce_ts_str parseISO now s h0']
      simp [hp]

/-- C5 witness: `1704067200` maps to the instant `1704067200`
(2024-01-01T00:00:00+00:00); `"2024-01-01T00:00:00Z"` coerces to the
same value as `"2024-01-01T00:00:00+00:00"` and to that instant; a
missing input and an unparseable string yield the injected clock. -/
theorem coerce_ts_amended_witness :
    coerce_ts
        (fun t => if t = "2024-01-01T00:00:00+00:00" then some 1704067200 else none)
        999 (TSValue.num 1704067200) = 1704067200 ∧
    coerce_ts
        (fun t => if t = "2024-01-01T00:00:00+00:00" then some 1704067200 else none)
        999 TSValue.missing = 999 ∧
    coerce_ts
        (fun t => if t = "2024-01-01T00:00:00+00:00" then some 1704067200 else none)
        999 (TSValue.str "2024-01-01T00:00:00Z")
      = coerce_ts
          (fun t => if t = "2024-01-01T00:00:00+00:00" then some 1704067200 else none)
          999 (TSValue.str (pyDropLast "2024-01-01T00:00:00Z" ++ "+00:00")) ∧
    coerce_ts (fun _ => none) 999 (TSValue.str "garbage") = 999 :=
  ⟨(coerce_ts_amended _ 999).1 1704067200 (by decide),
   (coerce_ts_amended _ 999).2.1,
   (coerce_ts_amended _ 999).2.2.1 "2024-01-01T00:00:00Z" (by decide) (by decide),
   (coerce_ts_amended _ 999).2.2.2 "garbage" (fun _ => rfl)⟩

/-- C6: with the pre-shared secret configured, any request whose API-key
header is absent or different is answered 401 with the fixed detail, and
neither persistence nor a broadcast happens. -/
theorem create_upload_rejects_bad_key (s : String) (key : Option String)
    (db : Except String Unit) (h : key ≠ some s) :
    create_upload (some s) key db
      = ⟨401, UploadBody.invalidApiKey, false, false⟩ := by
  simp [create_upload, h]

/-- C6 witness: an absent header and a mismatched header are both
rejected with 401 and no effects. -/
theorem create_upload_rejects_bad_key_witness :
    create_upload (some "hunter2") none (Except.ok ())
        = ⟨401, UploadBody.invalidApiKey, false, false⟩ ∧
    create_upload (some "hunter2") (some "wrong") (Except.ok ())
        = ⟨401, UploadBody.invalidApiKey, false, false⟩ :=
  ⟨create_upload_rejects_bad_key "hunter2" none (Except.ok ()) (by decide),
   create_upload_rejects_bad_key "hunter2" (some "wrong") (Except.ok ()) (by decide)⟩

/-- C7: on a database failure each endpoint's client-visible response is
a fixed 500-class body independent of the database error text: two runs
differing only in the error text produce identical responses, and the
bodies are the payload-free constants of the source. -/
theorem db_error_body_fixed (tr : String) (lim off : Int) (url : Option String)
    (u : String) (p : Option String) (sec key : Option String) (e1 e2 : String) :
    read_sensor_data tr lim off url (fun _ _ _ => .error e1)
      = read_sensor_data tr lim off url (fun _ _ _ => .error e2) ∧
    (timeRangeFilter tr ≠ none →
      read_sensor_data tr lim off url (fun _ _ _ => .error e1)
        = (500, ReadBody.fetchFailed)) ∧
    do_GET (some u) p (fun _ => .error e1) = do_GET (some u) p (fun _ => .error e2) ∧
    do_GET (some u) p (fun _ => .error e1) = (500, GetBody.databaseError) ∧
    create_upload sec key (.error e1) = create_upload sec key (.error e2) ∧
    (key = sec → create_upload sec key (.error e1)
        = ⟨500, UploadBody.writeFailed, false, false⟩) := by
  refine ⟨?_, ?_, ?_, ?_, ?_, ?_⟩
  · cases htr : timeRangeFilter tr <;> cases url <;> simp [read_sensor_data, htr]
  · intro h
    cases htr : timeRangeFilter tr with
    | none => exact absurd htr h
    | some w => cases url <;> simp [read_sensor_data, htr]
  · simp [do_GET]
  · simp [do_GET]
  · by_cases h : key = sec <;> simp [create_upload, h]
  · intro h
    simp [create_upload, h]

/-- C7 witness: concrete database failures at all three endpoints return
the fixed bodies with status 500. -/
theorem db_error_body_fixed_witness :
    read_sensor_data "30d" 500 0 (some "postgresql://db") (fun _ _ _ => .error "FATAL: role")
      = (500, ReadBody.fetchFailed) ∧
    do_GET (some "postgresql://db") (some "7days") (fun _ => .error "FATAL: role")
      = (500, GetBody.databaseError) ∧
    create_upload (some "k") (some "k") (.error "FATAL: role")
      = ⟨500, UploadBody.writeFailed, false, false⟩ :=
  ⟨(db_error_body_fixed "30d" 500 0 (some "postgresql://db") "postgresql://db"
      (some "7days") (some "k") (some "k") "FATAL: role" "other").2.1 (by decide),
   (db_error_body_fixed "30d" 500 0 (some "postgresql://db") "postgresql://db"
      (some "7days") (some "k") (some "k") "FATAL: role" "other").2.2.2.1,
   (db_error_body_fixed "30d" 500 0 (some "postgresql://db") "postgresql://db"
      (some "7days") (some "k") (some "k") "FATAL: role" "other").2.2.2.2.2 rfl⟩

/-- C8 counterexample: the serverless read handler does not reject a
`period` outside the enumerated set — a request with `period=garbage` is
served (status 200, default latest-20 query), not answered with an
error. -/
theorem do_GET_unknown_period_served :
    do_GET (some "postgresql://db") (some "garbage") (fun _ => Except.ok [])
      = (200, GetBody.records []) ∧
    selectQuery (some "garbage") = NeonQuery.latest20 :=
  ⟨rfl, rfl⟩

/-- C8 (amended): the FastAPI read endpoint restricts `time_range` to
the enumerated set, answering anything else with 400, and clamps the
limit to the maximum 5000; the serverless read handler instead serves
any unrecognized `period` exactly like a missing one (the default
latest-20 query) and takes no limit parameter. -/
theorem read_range_and_clamp (tr : String) (lim off : Int) (url : Option String)
    (db : RangeFilter → Int → Int → Except String (List Row))
    (p : Option String) (db2 : NeonQuery → Except String (List Row)) :
    (timeRangeFilter tr = none →
      read_sensor_data tr lim off url db = (400, ReadBody.invalidTimeRange)) ∧
    (5000 ≤ lim →
      read_sensor_data tr lim off url db = read_sensor_data tr 5000 off url db) ∧
    (p ≠ some "today" → p ≠ some "7days" → p ≠ some "30days" →
      do_GET url p db2 = do_GET url none db2) := by
  refine ⟨?_, ?_, ?_⟩
  · intro h
    simp [read_sensor_data, h]
  · intro h
    have h1 : max 1 (min lim 5000) = (5000 : Int) := by
      rw [min_eq_right h]
      simp
    have h2 : max 1 (min (5000 : Int) 5000) = (5000 : Int) := by simp
    simp only [read_sensor_data, h1, h2]
  · intro h1 h2 h3
    have e1 : (p == some "today") = false := beq_eq_false_iff_ne.mpr h1
    have e2 : (p == some "7days") = false := beq_eq_false_iff_ne.mpr h2
    have e3 : (p == some "30days") = false := beq_eq_false_iff_ne.mpr h3
    have hsel : selectQuery p = selectQuery none := by
      simp [selectQuery, e1, e2, e3]
    simp [do_GET, hsel]

/-- C8 witness: `time_range=garbage` is answered 400 by the FastAPI
endpoint; `limit=9999` behaves exactly like the maximum 5000; the
serverless handler serves `period=garbage` like a missing period. -/
theorem read_range_and_clamp_witness :
    read_sensor_data "garbage" 500 0 (some "postgresql://db") (fun _ _ _ => Except.ok [])
      = (400, ReadBody.invalidTimeRange) ∧
    read_sensor_data "30d" 9999 0 (some "postgresql://db") (fun _ _ _ => Except.ok [])
      = read_sensor_data "30d" 5000 0 (some "postgresql://db") (fun _ _ _ => Except.ok []) ∧
    do_GET (some "postgresql://db") (some "garbage") (fun _ => Except.ok [])
      = do_GET (some "postgresql://db") none (fun _ => Except.ok []) :=
  ⟨(read_range_and_clamp "garbage" 500 0 (some "postgresql://db")
      (fun _ _ _ => Except.ok []) (some "garbage") (fun _ => Except.ok [])).1 (by decide),
   (read_range_and_clamp "30d" 9999 0 (some "postgresql://db")
      (fun _ _ _ => Except.ok []) (some "garbage") (fun _ => Except.ok [])).2.1 (by decide),
   (read_range_and_clamp "30d" 9999 0 (some "postgresql://db")
      (fun _ _ _ => Except.ok []) (some "garbage") (fun _ => Except.ok [])).2.2
      (by decide) (by decide) (by decide)⟩

end GetDataFromNeon
